import Mathlib

/-!
Shallow embedding of the review-management client and its datastore schema.

Sources embedded:
* `supabase/migrations/20251029223422_create_locations_and_reviews_tables.sql`
  — the `locations` and `reviews` tables, the rating CHECK constraint, the
  `ON DELETE CASCADE` foreign key, and the row-level-security (RLS) policies.
* `src/pages/LocationDashboard.tsx` — `fetchLocationAndReviews`,
  `filterReviews`, `calculateStats`, and the page-level rendering branches.
* `src/pages/AdminDashboard.tsx` — `fetchLocations`, `handleSubmit`,
  `handleDelete` and their catch blocks.
* `src/lib/database.types.ts` — the row types `Location` and `Review`.
-/

namespace ReviewApp

/-- Row type of the `locations` table (`database.types.ts` / migration lines
36-44).  `user_id` is nullable; timestamps are modelled as naturals.  Note the
schema declares NO `email` column. -/
structure Location where
  id : String
  place_id : String
  telegram_chat_id : String
  name : String
  user_id : Option String
  created_at : Nat
  updated_at : Nat
  deriving Repr, DecidableEq

/-- Row type of the `reviews` table (`database.types.ts` / migration lines
47-60).  `rating` is an SQL `int`; `review_text`, `reviewer_profile_image`,
`response_text`, `response_date` are nullable.  `review_date` is a
`timestamptz`, modelled as a natural (epoch instant) so that the datastore's
chronological ordering is the numeric order. -/
structure Review where
  id : String
  location_id : String
  review_id : String
  reviewer_name : String
  reviewer_profile_image : Option String
  rating : Int
  review_text : Option String
  review_date : Nat
  response_text : Option String
  response_date : Option Nat
  created_at : Nat
  updated_at : Nat
  deriving Repr, DecidableEq

/-- The datastore: the two tables. -/
structure DBState where
  locations : List Location
  reviews : List Review
  deriving Repr, DecidableEq

/-- The `locations.id` column is the PRIMARY KEY: equal ids mean the same row. -/
def locationIdsUnique (db : DBState) : Prop :=
  ∀ l1 ∈ db.locations, ∀ l2 ∈ db.locations, l1.id = l2.id → l1 = l2

/-- An authenticated caller: `auth.uid()`, the optional email carried by the
session, and whether the signed `app_metadata` role claim is `admin`. -/
structure Caller where
  uid : String
  email : Option String
  isAdmin : Bool
  deriving Repr, DecidableEq

/-! ## Row-level security (migration lines 72-121)

PostgreSQL RLS combines permissive policies on the same action with OR.
For SELECT on `locations` the policies are "Admins can view all locations"
(role = admin) and "Location users can view their location"
(`user_id = auth.uid()`); for SELECT on `reviews` they are "Admins can view
all reviews" and "Location users can view their reviews" (EXISTS a location
row with that id owned by the caller). -/

/-- Rows of `locations` a caller's SELECT returns. -/
def visibleLocations (db : DBState) (c : Caller) : List Location :=
  db.locations.filter fun l => c.isAdmin || l.user_id == some c.uid

/-- Rows of `reviews` a caller's SELECT returns. -/
def visibleReviews (db : DBState) (c : Caller) : List Review :=
  db.reviews.filter fun r =>
    c.isAdmin || db.locations.any fun l => l.id == r.location_id && l.user_id == some c.uid

/-! ## Client-side filtering (`LocationDashboard.tsx`, `filterReviews`) -/

/-- JavaScript `s.toLowerCase()`. -/
def lowerStr (s : String) : String := String.mk (s.data.map Char.toLower)

/-- JavaScript `hay.includes(q)`: substring containment. -/
def containsStr (hay q : String) : Bool := decide (q.data <:+: hay.data)

/-- The text predicate of `filterReviews`:
`review.reviewer_name?.toLowerCase().includes(searchQuery.toLowerCase()) ||
review.review_text?.toLowerCase().includes(searchQuery.toLowerCase())`; a null `review_text` yields `undefined`,
which is falsy. -/
def reviewMatchesText (searchQuery : String) (r : Review) : Bool :=
  containsStr (lowerStr r.reviewer_name) (lowerStr searchQuery) ||
    (match r.review_text with
     | some t => containsStr (lowerStr t) (lowerStr searchQuery)
     | none => false)

/-- Model of `filterReviews` (LocationDashboard.tsx lines 75-91): start from a copy of
the list; when `searchQuery` is truthy (non-empty) keep reviews matching the
text predicate; when `ratingFilter` is not null keep reviews whose rating
equals it. -/
def filterReviews (reviews : List Review) (searchQuery : String)
    (ratingFilter : Option Int) : List Review :=
  let filtered := reviews
  let filtered := if searchQuery ≠ "" then
      filtered.filter (reviewMatchesText searchQuery)
    else filtered
  let filtered := match ratingFilter with
    | some rf => filtered.filter fun r => r.rating == rf
    | none => filtered
  filtered

/-! ## Aggregate statistics (`LocationDashboard.tsx`, `calculateStats`) -/

/-- The record returned by `calculateStats`; `distribution` is the JS object
`Record<number, number>` read back with `distribution[k] || 0`, i.e. a total
function with default 0. -/
structure Stats where
  average : ℚ
  total : Nat
  distribution : Int → Nat

/-- The rating sum of `calculateStats`:
`reviews.reduce((acc, review) => acc + review.rating, 0)`. -/
def ratingSum (reviews : List Review) : Int :=
  reviews.foldl (fun acc r => acc + r.rating) 0

/-- The histogram reduce of `calculateStats`:
`reviews.reduce((acc, review) => (acc[review.rating] = (acc[review.rating] || 0) + 1, acc), {})`. -/
def distributionOf (reviews : List Review) : Int → Nat :=
  reviews.foldl (fun acc r => Function.update acc r.rating (acc r.rating + 1))
    (fun _ => 0)

/-- Model of `calculateStats` (LocationDashboard.tsx lines 98-111): `{average: 0,
total: 0, distribution: {}}` on the empty list, else sum/total and the
rating histogram. -/
def calculateStats (reviews : List Review) : Stats :=
  if reviews.length = 0 then ⟨0, 0, fun _ => 0⟩
  else
    ⟨(ratingSum reviews : ℚ) / (reviews.length : ℚ), reviews.length,
      distributionOf reviews⟩

/-! ## Deleting a location (`AdminDashboard.tsx` `handleDelete` + the
`reviews.location_id` foreign key, migration line 49)

`handleDelete` issues `DELETE FROM locations WHERE id = :id`; the foreign key
`location_id uuid NOT NULL REFERENCES locations(id) ON DELETE CASCADE`
makes the datastore delete every review whose `location_id` references a
deleted location row. -/

/-- The datastore after `DELETE FROM locations WHERE id = lid` with the
cascading foreign key applied. -/
def deleteLocation (db : DBState) (lid : String) : DBState :=
  { locations := db.locations.filter fun l => !(l.id == lid)
    reviews := db.reviews.filter fun r => !(r.location_id == lid) }

/-! ## The rating CHECK constraint (migration line 53)

`rating int NOT NULL CHECK (rating >= 1 AND rating <= 5)`.  The datastore
evaluates the check on every INSERT and UPDATE of a `reviews` row; a failing
check aborts the statement, leaving the table unchanged. -/

/-- The CHECK expression of `reviews.rating`. -/
def ratingCheck (rating : Int) : Bool := 1 ≤ rating && rating ≤ 5

/-- An `INSERT INTO reviews VALUES (r)` under the CHECK constraint: the row is
appended when the check passes, otherwise the statement errors and the state
is unchanged. -/
def insertReview (db : DBState) (r : Review) : Except String DBState :=
  if ratingCheck r.rating then .ok { db with reviews := db.reviews ++ [r] }
  else .error "reviews_rating_check"

/-- An `UPDATE reviews SET rating = newRating WHERE id = rid` under the CHECK
constraint: every updated row must pass the check, otherwise the statement
errors and the state is unchanged. -/
def updateReviewRating (db : DBState) (rid : String) (newRating : Int) :
    Except String DBState :=
  if ratingCheck newRating then
    .ok { db with
          reviews := db.reviews.map fun r =>
            if r.id == rid then { r with rating := newRating } else r }
  else
    if db.reviews.any fun r => r.id == rid then .error "reviews_rating_check"
    else .ok db

/-! ## Catch blocks of the remote calls

Each remote operation wraps its calls in `try/catch`; the structure below
records what the catch block of each operation does when the remote call
yields an error: whether the error escapes, whether it is logged via
`console.error`, what user-facing message (if any) is shown, and how many
retries are attempted (none anywhere). -/

/-- What an operation's error path does. -/
structure ErrorOutcome where
  escapes : Bool
  logged : Bool
  userMessage : Option String
  retries : Nat
  deriving Repr, DecidableEq

/-- The `fetchLocationAndReviews` catch block (LocationDashboard.tsx lines 68-72):
`console.error('Error fetching data:', err)`, no user-facing message, no
retry. -/
def fetchLocationAndReviewsOnError : ErrorOutcome :=
  { escapes := false, logged := true, userMessage := none, retries := 0 }

/-- The `fetchLocations` catch block (AdminDashboard.tsx lines 40-44):
`console.error('Error fetching locations:', err)`, no user-facing message,
no retry. -/
def fetchLocationsOnError : ErrorOutcome :=
  { escapes := false, logged := true, userMessage := none, retries := 0 }

/-- The `handleDelete` catch block (AdminDashboard.tsx lines 110-113):
`console.error('Error deleting location:', err)` and
`alert('Failed to delete location')`, no retry. -/
def handleDeleteOnError : ErrorOutcome :=
  { escapes := false, logged := true,
    userMessage := some "Failed to delete location", retries := 0 }

/-- The `handleSubmit` catch block (AdminDashboard.tsx lines 92-94):
`setError(err instanceof Error ? err.message : 'Failed to save location')` —
the error's own message is surfaced in the modal; nothing is logged; no
retry.  `errMessage` is `err.message` for an `Error`, else the fallback. -/
def handleSubmitOnError (errMessage : String) : ErrorOutcome :=
  { escapes := false, logged := false, userMessage := some errMessage,
    retries := 0 }

/-! ## `fetchLocationAndReviews` (LocationDashboard.tsx lines 28-73)

The happy-path data flow, modelled over the rows visible to the caller
(the RLS-filtered SELECT results).  `maybeSingle()` resolves to `null` on no
rows, the row on one row, and an error on several rows.  The second lookup
filters `locations` on an `email` column; the migration declares no such
column on `locations`, so the datastore rejects that query with an
unknown-column error. -/

inductive QueryError
  | unknownColumn : String → QueryError
  | multipleRows : QueryError
  deriving Repr, DecidableEq

/-- Model of `.maybeSingle()` on a query result. -/
def maybeSingle {α : Type} (rows : List α) : Except QueryError (Option α) :=
  match rows with
  | [] => .ok none
  | [x] => .ok (some x)
  | _ => .error .multipleRows

/-- The fallback query
`supabase.from('locations').select('*').eq('email', email).maybeSingle()`:
the `locations` schema (migration lines 36-44) has no `email` column, so the
filter is rejected whatever the rows are. -/
def locationsEmailQuery (_visible : List Location) (_email : String) :
    Except QueryError (Option Location) :=
  .error (.unknownColumn "email")

/-- The query modifier `.order('review_date', descending)`: the datastore returns the
rows sorted by `review_date` descending. -/
def sortReviewsDesc (rs : List Review) : List Review :=
  rs.mergeSort fun a b => b.review_date ≤ a.review_date

/-- The in-memory result of one run of `fetchLocationAndReviews`: whether an
exception escaped the function, the `location` and `reviews` state set, the
`alert` calls made, and whether the catch block logged an error. -/
structure FetchOutcome where
  escaped : Bool
  location : Option Location
  reviews : List Review
  alerts : List String
  loggedError : Bool
  deriving Repr, DecidableEq

/-- Model of `fetchLocationAndReviews` over the caller-visible rows: look the location
up by `user_id`; on `null` fall back to the `email` lookup when the session
has an email; alert and stop when still `null`; otherwise fetch the
location's reviews ordered by `review_date` descending.  A thrown query
error is caught and logged. -/
def fetchLocationAndReviews (visibleLocs : List Location)
    (visibleRevs : List Review) (uid : String) (email : Option String) :
    FetchOutcome :=
  match maybeSingle (visibleLocs.filter fun l => l.user_id == some uid) with
  | .error _ =>
      { escaped := false, location := none, reviews := [], alerts := [],
        loggedError := true }
  | .ok firstLookup =>
    let fallback : Except QueryError (Option Location) :=
      match firstLookup, email with
      | none, some em => locationsEmailQuery visibleLocs em
      | ld, _ => .ok ld
    match fallback with
    | .error _ =>
        { escaped := false, location := none, reviews := [], alerts := [],
          loggedError := true }
    | .ok none =>
        { escaped := false, location := none, reviews := [],
          alerts :=
            ["No location assigned to your account. Please contact an administrator."],
          loggedError := false }
    | .ok (some loc) =>
        { escaped := false, location := some loc,
          reviews :=
            sortReviewsDesc (visibleRevs.filter fun r => r.location_id == loc.id),
          alerts := [], loggedError := false }

/-- The three top-level render branches of `LocationDashboard`
(lines 115-135): the spinner while loading, the "No Location Assigned"
guidance state when no location is set, else the dashboard. -/
inductive Page
  | loadingPage : Page
  | noLocationAssigned : Page
  | dashboardPage : Location → Page
  deriving Repr, DecidableEq

/-- The page `LocationDashboard` renders from its state. -/
def render (loading : Bool) (location : Option Location) : Page :=
  if loading then .loadingPage
  else
    match location with
    | none => .noLocationAssigned
    | some l => .dashboardPage l

/-! ## Sample rows (concrete inputs for witnesses) -/

def loc1 : Location :=
  { id := "loc1", place_id := "p1", telegram_chat_id := "t1", name := "Downtown",
    user_id := some "u1", created_at := 0, updated_at := 0 }

def loc2 : Location :=
  { id := "loc2", place_id := "p2", telegram_chat_id := "t2", name := "Uptown",
    user_id := some "u2", created_at := 0, updated_at := 0 }

def loc3 : Location :=
  { id := "loc3", place_id := "p3", telegram_chat_id := "t3", name := "Midtown",
    user_id := none, created_at := 0, updated_at := 0 }

def rev1 : Review :=
  { id := "r1", location_id := "loc1", review_id := "g1",
    reviewer_name := "Alice", reviewer_profile_image := none, rating := 5,
    review_text := some "Great coffee", review_date := 30,
    response_text := none, response_date := none, created_at := 0, updated_at := 0 }

def rev2 : Review :=
  { id := "r2", location_id := "loc1", review_id := "g2",
    reviewer_name := "Bob", reviewer_profile_image := none, rating := 3,
    review_text := none, review_date := 10,
    response_text := none, response_date := none, created_at := 0, updated_at := 0 }

def rev3 : Review :=
  { id := "r3", location_id := "loc2", review_id := "g3",
    reviewer_name := "Carol", reviewer_profile_image := none, rating := 1,
    review_text := some "Bad", review_date := 20,
    response_text := none, response_date := none, created_at := 0, updated_at := 0 }

def sampleDB : DBState :=
  { locations := [loc1, loc2, loc3], reviews := [rev1, rev2, rev3] }

/-! ## Helper lemmas -/

theorem lowerStr_empty : lowerStr "" = "" := rfl

theorem containsStr_empty (hay : String) : containsStr hay "" = true := by
  show decide ("".data <:+: hay.data) = true
  simp [String.data]

theorem reviewMatchesText_empty (r : Review) : reviewMatchesText "" r = true := by
  unfold reviewMatchesText
  rw [lowerStr_empty, containsStr_empty, Bool.true_or]

/-- C2. For every review list, query and optional rating, `filterReviews`
retains exactly the reviews satisfying the text predicate (reviewer name or
text case-insensitively contains the query; a null text never matching by
that field) AND, when set, an exact rating match; the empty query matches
everything, so empty query with no rating filter returns the input, and a
rating filter R keeps only rating-R reviews. -/
theorem filterReviews_correct (reviews : List Review) (q : String)
    (rf : Option Int) :
    (filterReviews reviews q rf =
      reviews.filter fun r =>
        reviewMatchesText q r &&
          match rf with
          | some v => r.rating == v
          | none => true)
    ∧ filterReviews reviews "" none = reviews
    ∧ ∀ R : Int, ∀ r ∈ filterReviews reviews q (some R), r.rating = R := by
  have hmain : ∀ (q' : String) (rf' : Option Int),
      filterReviews reviews q' rf' =
        reviews.filter fun r =>
          reviewMatchesText q' r &&
            match rf' with
            | some v => r.rating == v
            | none => true := by
    intro q' rf'
    cases rf' with
    | none =>
        by_cases hq : q' = ""
        · subst hq
          simp [filterReviews, reviewMatchesText_empty]
        · simp [filterReviews, hq]
    | some v =>
        by_cases hq : q' = ""
        · subst hq
          simp [filterReviews, reviewMatchesText_empty]
        · simp only [filterReviews, ne_eq, hq, not_false_eq_true, if_true,
            List.filter_filter]
          exact List.filter_congr fun r _ => by rw [Bool.and_comm]
  refine ⟨hmain q rf, ?_, ?_⟩
  · rw [hmain "" none]
    exact List.filter_eq_self.mpr fun r _ => by
      simp [reviewMatchesText_empty]
  · intro R r hr
    rw [hmain q (some R)] at hr
    have := (List.mem_filter.mp hr).2
    simp only [Bool.and_eq_true, beq_iff_eq] at this
    exact this.2

/-- Witness for C2 at a concrete input. -/
theorem filterReviews_correct_witness :
    filterReviews [rev1, rev2, rev3] "" none = [rev1, rev2, rev3]
    ∧ rev1.rating = 5 :=
  ⟨(filterReviews_correct [rev1, rev2, rev3] "x" none).2.1,
   (filterReviews_correct [rev1, rev2, rev3] "" (some 5)).2.2 5 rev1 (by decide)⟩

theorem ratingSum_eq_sum (reviews : List Review) :
    ratingSum reviews = (reviews.map Review.rating).sum := by
  have key : ∀ (rs : List Review) (acc : Int),
      rs.foldl (fun a r => a + r.rating) acc = acc + (rs.map Review.rating).sum := by
    intro rs
    induction rs with
    | nil => intro acc; simp
    | cons r t ih =>
        intro acc
        simp only [List.foldl_cons, List.map_cons, List.sum_cons, ih]
        ring
  simpa using key reviews 0

/-- C3. The computed average rating is the arithmetic mean of the rating
values (summed as integers, divided as rationals), and 0 on the empty
list. -/
theorem calculateStats_average_correct (reviews : List Review) :
    (calculateStats reviews).average =
      ((reviews.map Review.rating).sum : ℚ) / (reviews.length : ℚ)
    ∧ (calculateStats []).average = 0 := by
  constructor
  · unfold calculateStats
    by_cases h : reviews.length = 0
    · rw [if_pos h, h]
      simp [List.length_eq_zero.mp h]
    · rw [if_neg h]
      simp [ratingSum_eq_sum]
  · rfl

theorem distributionOf_eq_count (reviews : List Review) (k : Int) :
    distributionOf reviews k = (reviews.filter fun r => r.rating == k).length := by
  have key : ∀ (rs : List Review) (acc : Int → Nat),
      rs.foldl (fun a r => Function.update a r.rating (a r.rating + 1)) acc k =
        acc k + (rs.filter fun r => r.rating == k).length := by
    intro rs
    induction rs with
    | nil => intro acc; simp
    | cons r t ih =>
        intro acc
        simp only [List.foldl_cons, ih, List.filter_cons]
        by_cases hk : r.rating = k
        · subst hk
          simp [Function.update_apply]
          omega
        · have hbne : (r.rating == k) = false := by
            simpa using hk
          simp [hbne, Function.update_apply, Ne.symm hk]
  simpa [distributionOf] using key reviews fun _ => 0

theorem calculateStats_distribution_eq (reviews : List Review) :
    (calculateStats reviews).distribution = distributionOf reviews := by
  unfold calculateStats
  by_cases h : reviews.length = 0
  · rw [if_pos h]
    rw [List.length_eq_zero.mp h]
    rfl
  · rw [if_neg h]

/-- C4. When every rating lies in {1,...,5}, the five histogram buckets sum
to the list length, and each bucket k counts exactly the reviews with
rating k. -/
theorem distribution_correct (reviews : List Review)
    (h : ∀ r ∈ reviews, 1 ≤ r.rating ∧ r.rating ≤ 5) :
    ((calculateStats reviews).distribution 1 + (calculateStats reviews).distribution 2
      + (calculateStats reviews).distribution 3
      + (calculateStats reviews).distribution 4
      + (calculateStats reviews).distribution 5 = reviews.length)
    ∧ ∀ k : Int, (calculateStats reviews).distribution k =
        (reviews.filter fun r => r.rating == k).length := by
  rw [calculateStats_distribution_eq]
  refine ⟨?_, fun k => distributionOf_eq_count reviews k⟩
  simp only [distributionOf_eq_count]
  induction reviews with
  | nil => simp
  | cons r t ih =>
      have hr := h r (List.mem_cons_self r t)
      have ht := ih fun x hx => h x (List.mem_cons_of_mem r hx)
      have hcase : r.rating = 1 ∨ r.rating = 2 ∨ r.rating = 3 ∨ r.rating = 4
          ∨ r.rating = 5 := by omega
      simp only [List.filter_cons, List.length_cons]
      rcases hcase with h1 | h2 | h3 | h4 | h5 <;>
        simp_all <;> omega

/-- Witness for C4 at a concrete input. -/
theorem distribution_correct_witness :
    (calculateStats [rev1, rev2, rev3]).distribution 1
      + (calculateStats [rev1, rev2, rev3]).distribution 2
      + (calculateStats [rev1, rev2, rev3]).distribution 3
      + (calculateStats [rev1, rev2, rev3]).distribution 4
      + (calculateStats [rev1, rev2, rev3]).distribution 5
      = ([rev1, rev2, rev3] : List Review).length :=
  (distribution_correct [rev1, rev2, rev3] (by decide)).1

/-- C5. Deleting a location removes exactly the reviews referencing it:
afterwards no review references the deleted location, a review survives iff
it was present and references a different location, and the surviving
reviews keep their relative order; the other locations' rows are exactly
those not deleted. -/
theorem deleteLocation_cascades (db : DBState) (lid : String) :
    (∀ r ∈ (deleteLocation db lid).reviews, r.location_id ≠ lid)
    ∧ (∀ r : Review, r ∈ (deleteLocation db lid).reviews ↔
        r ∈ db.reviews ∧ r.location_id ≠ lid)
    ∧ List.Sublist (deleteLocation db lid).reviews db.reviews := by
  refine ⟨?_, ?_, ?_⟩
  · intro r hr
    have := (List.mem_filter.mp hr).2
    simpa using this
  · intro r
    constructor
    · intro hr
      have h2 := List.mem_filter.mp hr
      refine ⟨h2.1, ?_⟩
      simpa using h2.2
    · intro ⟨h1, h2⟩
      exact List.mem_filter.mpr ⟨h1, by simpa using h2⟩
  · exact List.filter_sublist db.reviews

/-- Witness for C5 at a concrete input. -/
theorem deleteLocation_cascades_witness :
    rev3 ∉ (deleteLocation sampleDB "loc2").reviews
    ∧ rev1 ∈ (deleteLocation sampleDB "loc2").reviews :=
  ⟨fun hmem =>
      (deleteLocation_cascades sampleDB "loc2").1 rev3 hmem (by decide),
   ((deleteLocation_cascades sampleDB "loc2").2.1 rev1).mpr
      ⟨by decide, by decide⟩⟩

/-- C6. The datastore CHECK constraint on `reviews.rating` rejects an insert
with a rating outside [1,5] (producing an error and no new state) and an
update setting an existing review's rating outside [1,5]; an insert or
update with a rating in [1,5] is not rejected by this constraint. -/
theorem rating_check_constraint (db : DBState) (r : Review) (rid : String)
    (nr : Int) :
    (¬(1 ≤ r.rating ∧ r.rating ≤ 5) →
      insertReview db r = .error "reviews_rating_check")
    ∧ ((1 ≤ r.rating ∧ r.rating ≤ 5) →
      insertReview db r = .ok { db with reviews := db.reviews ++ [r] })
    ∧ ((¬(1 ≤ nr ∧ nr ≤ 5)) → (∃ rv ∈ db.reviews, rv.id = rid) →
      updateReviewRating db rid nr = .error "reviews_rating_check")
    ∧ ((1 ≤ nr ∧ nr ≤ 5) →
      updateReviewRating db rid nr = .ok
        { db with reviews := db.reviews.map fun rv =>
            if rv.id == rid then { rv with rating := nr } else rv }) := by
  refine ⟨?_, ?_, ?_, ?_⟩
  · intro hout
    have hc : ratingCheck r.rating = false := by
      unfold ratingCheck
      simp only [Bool.and_eq_false_iff, decide_eq_false_iff_not]
      omega
    simp [insertReview, hc]
  · intro hin
    have hc : ratingCheck r.rating = true := by
      unfold ratingCheck
      simp only [Bool.and_eq_true, decide_eq_true_eq]
      omega
    simp [insertReview, hc]
  · intro hout hex
    have hc : ratingCheck nr = false := by
      unfold ratingCheck
      simp only [Bool.and_eq_false_iff, decide_eq_false_iff_not]
      omega
    have hany : (db.reviews.any fun rv => rv.id == rid) = true := by
      obtain ⟨rv, hrv, hid⟩ := hex
      exact List.any_eq_true.mpr ⟨rv, hrv, by simpa using hid⟩
    simp [updateReviewRating, hc, hany]
  · intro hin
    have hc : ratingCheck nr = true := by
      unfold ratingCheck
      simp only [Bool.and_eq_true, decide_eq_true_eq]
      omega
    simp [updateReviewRating, hc]

/-- Witness for C6 at concrete inputs: a rating-7 insert is rejected, a
rating-4 insert is accepted, a rating-0 update of an existing review is
rejected. -/
theorem rating_check_constraint_witness :
    insertReview sampleDB { rev1 with id := "r9", review_id := "g9", rating := 7 }
      = .error "reviews_rating_check"
    ∧ insertReview sampleDB { rev1 with id := "r9", review_id := "g9", rating := 4 }
      = .ok { sampleDB with
          reviews := sampleDB.reviews
            ++ [{ rev1 with id := "r9", review_id := "g9", rating := 4 }] }
    ∧ updateReviewRating sampleDB "r1" 0 = .error "reviews_rating_check" :=
  ⟨(rating_check_constraint sampleDB
      { rev1 with id := "r9", review_id := "g9", rating := 7 } "r1" 0).1
      (by decide),
   (rating_check_constraint sampleDB
      { rev1 with id := "r9", review_id := "g9", rating := 4 } "r1" 0).2.1
      (by decide),
   (rating_check_constraint sampleDB rev1 "r1" 0).2.2.1 (by decide)
      ⟨rev1, by decide, by decide⟩⟩

/-- C1. Under the RLS policies, a non-admin caller reading another user's
location row (any row whose `user_id` is not the caller's id) gets no rows,
and reading that location's reviews gets no rows; every location row a
non-admin can read has `user_id` equal to the caller's id. -/
theorem nonadmin_reads_only_own (db : DBState) (c : Caller) (l : Location)
    (hadm : c.isAdmin = false) (huniq : locationIdsUnique db)
    (hl : l ∈ db.locations) (hne : l.user_id ≠ some c.uid) :
    l ∉ visibleLocations db c
    ∧ (∀ r ∈ db.reviews, r.location_id = l.id → r ∉ visibleReviews db c)
    ∧ ∀ l' ∈ visibleLocations db c, l'.user_id = some c.uid := by
  refine ⟨?_, ?_, ?_⟩
  · intro hmem
    have h2 := (List.mem_filter.mp hmem).2
    rw [hadm] at h2
    simp only [Bool.false_or, beq_iff_eq] at h2
    exact hne h2
  · intro r _ hrl hmem
    have h2 := (List.mem_filter.mp hmem).2
    rw [hadm] at h2
    simp only [Bool.false_or, List.any_eq_true, Bool.and_eq_true,
      beq_iff_eq] at h2
    obtain ⟨l', hl', hid, huid⟩ := h2
    have heq : l' = l := huniq l' hl' l hl (by rw [hid, hrl])
    rw [heq] at huid
    exact hne huid
  · intro l' hmem
    have h2 := (List.mem_filter.mp hmem).2
    rw [hadm] at h2
    simpa using h2

/-- Witness for C1: for the non-admin caller `u1`, the location owned by
`u2` and its review are invisible. -/
theorem nonadmin_reads_only_own_witness :
    loc2 ∉ visibleLocations sampleDB ⟨"u1", none, false⟩
    ∧ rev3 ∉ visibleReviews sampleDB ⟨"u1", none, false⟩ :=
  ⟨(nonadmin_reads_only_own sampleDB ⟨"u1", none, false⟩ loc2 rfl (by unfold locationIdsUnique; decide)
      (by decide) (by decide)).1,
   (nonadmin_reads_only_own sampleDB ⟨"u1", none, false⟩ loc2 rfl (by unfold locationIdsUnique; decide)
      (by decide) (by decide)).2.1 rev3 (by decide) (by decide)⟩

/-- C7 counterexample: the fetch operation of the location dashboard, on an
error result, logs the error but presents NO user-facing message, so it is
false that each fetch, save, and delete operation both logs and presents a
generic message. -/
theorem fetch_error_presents_no_message :
    ¬(fetchLocationAndReviewsOnError.logged = true
      ∧ fetchLocationAndReviewsOnError.userMessage.isSome = true) := by
  decide

/-- C7 amended: every remote-call failure is caught (nothing escapes) with
no retry; the two fetch operations log the error and present no user-facing
message; the delete operation logs the error and presents the generic
message "Failed to delete location"; the save operation presents the
error's own message without logging it. -/
theorem remote_error_handling (errMessage : String) :
    (fetchLocationAndReviewsOnError.escapes = false
      ∧ fetchLocationAndReviewsOnError.retries = 0
      ∧ fetchLocationAndReviewsOnError.logged = true
      ∧ fetchLocationAndReviewsOnError.userMessage = none)
    ∧ (fetchLocationsOnError.escapes = false
      ∧ fetchLocationsOnError.retries = 0
      ∧ fetchLocationsOnError.logged = true
      ∧ fetchLocationsOnError.userMessage = none)
    ∧ (handleDeleteOnError.escapes = false
      ∧ handleDeleteOnError.retries = 0
      ∧ handleDeleteOnError.logged = true
      ∧ handleDeleteOnError.userMessage = some "Failed to delete location")
    ∧ ((handleSubmitOnError errMessage).escapes = false
      ∧ (handleSubmitOnError errMessage).retries = 0
      ∧ (handleSubmitOnError errMessage).logged = false
      ∧ (handleSubmitOnError errMessage).userMessage = some errMessage) :=
  ⟨⟨rfl, rfl, rfl, rfl⟩, ⟨rfl, rfl, rfl, rfl⟩, ⟨rfl, rfl, rfl, rfl⟩,
    ⟨rfl, rfl, rfl, rfl⟩⟩

/-- C8. When no visible location row has the caller's id as `user_id`, the
fetch completes without an escaping exception, sets no location, and the
page renders the dedicated "No Location Assigned" guidance state. -/
theorem missing_location_is_guidance_state (visibleLocs : List Location)
    (visibleRevs : List Review) (uid : String) (email : Option String)
    (h : ∀ l ∈ visibleLocs, l.user_id ≠ some uid) :
    (fetchLocationAndReviews visibleLocs visibleRevs uid email).escaped = false
    ∧ (fetchLocationAndReviews visibleLocs visibleRevs uid email).location = none
    ∧ render false
        (fetchLocationAndReviews visibleLocs visibleRevs uid email).location
        = Page.noLocationAssigned := by
  have hfil : visibleLocs.filter (fun l => l.user_id == some uid) = [] :=
    List.filter_eq_nil_iff.mpr fun l hl => by simpa using h l hl
  cases email with
  | none =>
      simp [fetchLocationAndReviews, hfil, maybeSingle, render]
  | some em =>
      simp [fetchLocationAndReviews, hfil, maybeSingle, locationsEmailQuery,
        render]

/-- Witness for C8: a caller matching no location gets the guidance state. -/
theorem missing_location_is_guidance_state_witness :
    (fetchLocationAndReviews [loc3] [] "u9" (some "u9@mail.test")).location = none
    ∧ render false
        (fetchLocationAndReviews [loc3] [] "u9" (some "u9@mail.test")).location
        = Page.noLocationAssigned :=
  ⟨(missing_location_is_guidance_state [loc3] [] "u9" (some "u9@mail.test")
      (by decide)).2.1,
   (missing_location_is_guidance_state [loc3] [] "u9" (some "u9@mail.test")
      (by decide)).2.2⟩

theorem maybeSingle_ok_some {α : Type} {rows : List α} {x : α}
    (h : maybeSingle rows = .ok (some x)) : x ∈ rows := by
  cases rows with
  | nil => simp [maybeSingle] at h
  | cons y ys =>
      cases ys with
      | nil =>
          simp only [maybeSingle, Except.ok.injEq, Option.some.injEq] at h
          simp [h]
      | cons z zs => simp [maybeSingle] at h

/-- C9. The email fallback lookup targets a column absent from the
`locations` schema, so it always errors and can never resolve a location:
a location is displayed only when some visible location row's `user_id`
equals the caller's id. -/
theorem fallback_never_resolves (visibleLocs : List Location)
    (visibleRevs : List Review) (uid : String) (email : Option String)
    (loc : Location)
    (h : (fetchLocationAndReviews visibleLocs visibleRevs uid email).location
        = some loc) :
    (loc ∈ visibleLocs ∧ loc.user_id = some uid)
    ∧ ∀ (ls : List Location) (em : String),
        locationsEmailQuery ls em = .error (.unknownColumn "email") := by
  refine ⟨?_, fun ls em => rfl⟩
  unfold fetchLocationAndReviews at h
  cases hms : maybeSingle (visibleLocs.filter fun l => l.user_id == some uid) with
  | error e =>
      rw [hms] at h
      simp at h
  | ok fl =>
      rw [hms] at h
      cases fl with
      | none =>
          cases email with
          | none => simp at h
          | some em => simp [locationsEmailQuery] at h
      | some l0 =>
          have hl0 : l0 = loc := by
            cases email with
            | none => simpa using h
            | some em => simpa using h
          subst hl0
          have hmem := maybeSingle_ok_some hms
          have h2 := List.mem_filter.mp hmem
          exact ⟨h2.1, by simpa using h2.2⟩

/-- Witness for C9: the displayed location for caller `u1` is owned by
`u1`. -/
theorem fallback_never_resolves_witness :
    loc1 ∈ [loc1, loc3] ∧ loc1.user_id = some "u1" :=
  (fallback_never_resolves [loc1, loc3] [rev1] "u1" none loc1 (by decide)).1

theorem sortReviewsDesc_sorted (rs : List Review) :
    (sortReviewsDesc rs).Pairwise fun a b => b.review_date ≤ a.review_date := by
  have h := @List.sorted_mergeSort Review
    (fun a b : Review => decide (b.review_date ≤ a.review_date))
    (fun a b c hab hbc => by
      simp only [decide_eq_true_eq] at hab hbc ⊢
      omega)
    (fun a b => by
      simp only [Bool.or_eq_true, decide_eq_true_eq]
      omega)
    rs
  exact h.imp fun hab => by simpa using hab

theorem filterReviews_sublist (rs : List Review) (q : String)
    (rf : Option Int) :
    List.Sublist (filterReviews rs q rf) rs := by
  cases rf with
  | none =>
      by_cases hq : q = ""
      · simp [filterReviews, hq]
      · simp only [filterReviews, ne_eq, hq, not_false_eq_true, if_true]
        exact List.filter_sublist rs
  | some v =>
      by_cases hq : q = ""
      · simp only [filterReviews, ne_eq, not_true_eq_false, if_false, hq]
        exact List.filter_sublist rs
      · simp only [filterReviews, ne_eq, hq, not_false_eq_true, if_true]
        exact (List.filter_sublist _).trans (List.filter_sublist rs)

theorem fetch_reviews_shape (visibleLocs : List Location)
    (visibleRevs : List Review) (uid : String) (email : Option String) :
    ∃ rs0, (fetchLocationAndReviews visibleLocs visibleRevs uid email).reviews
      = sortReviewsDesc rs0 := by
  unfold fetchLocationAndReviews
  cases maybeSingle (visibleLocs.filter fun l => l.user_id == some uid) with
  | error e => exact ⟨[], by simp [sortReviewsDesc]⟩
  | ok fl =>
      cases fl with
      | none =>
          cases email with
          | none => exact ⟨[], by simp [sortReviewsDesc]⟩
          | some em => exact ⟨[], by simp [locationsEmailQuery, sortReviewsDesc]⟩
      | some l0 =>
          cases email with
          | none =>
              exact ⟨visibleRevs.filter fun r => r.location_id == l0.id, by simp⟩
          | some em =>
              exact ⟨visibleRevs.filter fun r => r.location_id == l0.id, by simp⟩

/-- C10. The review list the dashboard fetches is sorted by `review_date`
descending, and the filtered list shown to the user is an order-preserving
sublist of it. -/
theorem fetched_reviews_sorted_and_filter_sublist (visibleLocs : List Location)
    (visibleRevs : List Review) (uid : String) (email : Option String)
    (q : String) (rf : Option Int) :
    ((fetchLocationAndReviews visibleLocs visibleRevs uid email).reviews).Pairwise
      (fun a b => b.review_date ≤ a.review_date)
    ∧ List.Sublist
        (filterReviews
          (fetchLocationAndReviews visibleLocs visibleRevs uid email).reviews q rf)
        (fetchLocationAndReviews visibleLocs visibleRevs uid email).reviews := by
  obtain ⟨rs0, hrs⟩ := fetch_reviews_shape visibleLocs visibleRevs uid email
  constructor
  · rw [hrs]
    exact sortReviewsDesc_sorted rs0
  · exact filterReviews_sublist _ q rf

end ReviewApp
